import Mathlib

/-!
Verification of the git-summarizer MCP server (src/main.rs, src/protocol.rs,
src/git.rs): a line-delimited JSON-RPC stdio loop exposing two tools.

The embedding models JSON values as an inductive type, the serde-derived
deserializers of `protocol.rs` as explicit parsing functions, the dispatch
`match` of `main` as a pure function from a configuration, a git-collaborator
environment and a request to a new configuration, a list of collaborator
invocations and an `Except`-valued response payload (the `?` operator on the
`tools/call` params parse becomes the `Except.error` case), and the stdin
loop as recursion over a list of line-parse outcomes.
-/

/-- JSON values (serde_json::Value). Numbers are modelled as integers, which
covers every numeric literal the claims touch. -/
inductive Json where
  | null
  | bool (b : Bool)
  | num (n : Int)
  | str (s : String)
  | arr (elems : List Json)
  | obj (fields : List (String × Json))

/-- Field lookup on a JSON object (serde_json Value::get / index by key):
`none` for a missing key and for any non-object value. -/
def Json.getField : Json → String → Option Json
  | .obj fields, key => fields.lookup key
  | _, _ => none

/-- Value::as_str: the payload of a string value, `none` otherwise. -/
def Json.asStr : Json → Option String
  | .str s => some s
  | _ => none

/-- protocol.rs JsonRpcRequest: `{jsonrpc, method, params?, id?}`. -/
structure JsonRpcRequest where
  jsonrpc : String
  method : String
  params : Option Json
  id : Option Json

/-- protocol.rs CallToolParams: `{name, arguments?}`. -/
structure CallToolParams where
  name : String
  arguments : Option Json

/-- The serde deserialization of CallToolParams from a JSON value: requires an
object with a string `name` field; `arguments` is an `Option<Value>`, so a
missing field or a JSON `null` both become `none`. Any other shape is a
deserialization error (which main propagates with `?`). -/
def parseCallToolParams : Json → Except String CallToolParams
  | .obj fields =>
    match fields.lookup "name" with
    | some (.str n) =>
      let args : Option Json :=
        match fields.lookup "arguments" with
        | some Json.null => none
        | some v => some v
        | none => none
      .ok { name := n, arguments := args }
    | some _ => .error "invalid type for field name"
    | none => .error "missing field name"
  | _ => .error "invalid type: expected struct CallToolParams"

/-- The serde deserialization of InitializeParams (protocol.rs): an object
whose optional `options` field is kept as a raw JSON value (`Option<Value>`,
so missing or `null` become `none`); the flattened catch-all accepts any other
fields but forces the input to be an object. Returns the `options` value. -/
def parseInitParams : Json → Except String (Option Json)
  | .obj fields =>
    match fields.lookup "options" with
    | some Json.null => .ok none
    | some v => .ok (some v)
    | none => .ok none
  | _ => .error "invalid type: expected struct InitializeParams"

/-- The server configuration (struct ServerConfig in main.rs). -/
structure ServerConfig where
  commit_format : String
deriving DecidableEq

/-- The built-in default commit-format template (the raw string in the
`lazy_static` CONFIG initializer of main.rs). -/
def defaultCommitFormat : String :=
  "<type>[optional scope]: <english description>\n\n[English body]\n\n[Chinese body]\n\nLog: [short description of the change use chinese language]\nPMS: <BUG-number>(for bugfix) or <TASK-number>(for add feature) (Must include \x27BUG-\x27 or \x27TASK-\x27, If the user does not provide a number, remove this line.)\nInfluence: Explain in Chinese the potential impact of this submission."

/-- CONFIG at process start. -/
def defaultServerConfig : ServerConfig :=
  { commit_format := defaultCommitFormat }

/-- The `initialize` branch of main's dispatch: if the params deserialize and
carry an `options.commitFormat` string, overwrite the configuration; every
other shape (absent params, failed parse, absent or non-string field) leaves
it unchanged. -/
def applyInitOverride (cfg : ServerConfig) (params : Option Json) : ServerConfig :=
  match params with
  | none => cfg
  | some pv =>
    match parseInitParams pv with
    | .error _ => cfg
    | .ok none => cfg
    | .ok (some options) =>
      match (options.getField "commitFormat").bind Json.asStr with
      | some format => { commit_format := format }
      | none => cfg

/-- protocol.rs Tool. -/
structure Tool where
  name : String
  description : String
  input_schema : Json

/-- Serialization of a Tool (serde rename_all camelCase: inputSchema). -/
def toolToJson (t : Tool) : Json :=
  .obj [("name", .str t.name), ("description", .str t.description),
        ("inputSchema", t.input_schema)]

/-- The tool list built on each `tools/list` call in main.rs; the
`get_staged_diff` description interpolates the current commit format. -/
def toolCatalog (cfg : ServerConfig) : List Tool :=
  [ { name := "get_staged_diff",
      description :=
        "获取当前 git 暂存区的变更内容 (git diff --staged)。获取后，请你根据变更内容总结出一个提交信息，并询问用户是否提交。\n\n### 提交格式要求：\n"
          ++ cfg.commit_format
          ++ "\n\n### 额外约束：\n- Body 的每一行不得超过 80 个字符。\n- 如果修改范围很小，可以同时省略 English body 和 Chinese body。\n- 如果不省略 body，则必须同时保留 English body 和 Chinese body，不得只写其中一个。",
      input_schema := .obj [("type", .str "object"), ("properties", .obj [])] },
    { name := "execute_commit",
      description := "执行提交。请在用户确认了你总结的提交信息后再调用此工具。",
      input_schema := .obj
        [("type", .str "object"),
         ("properties", .obj [("message", .obj
            [("type", .str "string"), ("description", .str "提交信息")])]),
         ("required", .arr [.str "message"])] } ]

/-- The description of the first (get_staged_diff) catalog entry. -/
def stagedDiffDesc (cfg : ServerConfig) : String :=
  match toolCatalog cfg with
  | t :: _ => t.description
  | [] => ""

/-- The `initialize` result payload of main.rs. -/
def initResultJson : Json :=
  .obj [("protocolVersion", .str "2024-11-05"),
        ("capabilities", .obj [("tools", .obj [("listChanged", .bool true)])]),
        ("serverInfo", .obj [("name", .str "git-summarizer"),
                             ("version", .str "0.1.0")])]

/-- An invocation of the external git collaborator (git.rs). -/
inductive GitCall where
  | getStagedDiff
  | commit (message : String)
deriving DecidableEq

/-- Outcomes of the two collaborator functions for the current repository
state: `get_staged_diff()` and `commit(message)`, each `Result<String>`. -/
structure GitEnv where
  stagedDiff : Except String String
  commit : String → Except String String

/-- GitHandler::get_staged_diff of git.rs, with the repository access
abstracted to the list of diff-line contents the `diff.print` callback would
append: their concatenation is the staged diff text, and an empty
concatenation (in particular an empty staged change set) is the error
`没有发现已暂存的变更。`, never an empty success. -/
def getStagedDiffImpl (diffLines : List String) : Except String String :=
  let diffText := String.join diffLines
  if diffText.isEmpty then .error "没有发现已暂存的变更。"
  else .ok diffText

/-- The `{type:"text", text}` content array wrapping every tool outcome. -/
def textContent (t : String) : Json :=
  .arr [.obj [("type", .str "text"), ("text", .str t)]]

/-- The `tools/call` tool match of main.rs: returns the collaborator calls
made and the tool-result payload. Unknown tool names make no collaborator
call and produce the fixed `未知工具` isError payload. -/
def callTool (env : GitEnv) (p : CallToolParams) : List GitCall × Json :=
  if p.name = "get_staged_diff" then
    match env.stagedDiff with
    | .ok diff => ([.getStagedDiff], .obj [("content", textContent diff)])
    | .error e => ([.getStagedDiff],
        .obj [("isError", .bool true), ("content", textContent e)])
  else if p.name = "execute_commit" then
    let msg := (p.arguments.bind fun a => (a.getField "message").bind Json.asStr).getD ""
    match env.commit msg with
    | .ok res => ([.commit msg], .obj [("content", textContent res)])
    | .error e => ([.commit msg],
        .obj [("isError", .bool true), ("content", textContent e)])
  else
    ([], .obj [("isError", .bool true), ("content", textContent "未知工具")])

/-- The method dispatch of main.rs for one parsed request: the updated
configuration, the collaborator calls made, and `response_payload` as an
`Except` (`Except.error` is the `?`-propagated `tools/call` params parse
failure; `Except.ok none` is a branch that produces no payload). -/
def dispatch (cfg : ServerConfig) (env : GitEnv) (req : JsonRpcRequest) :
    ServerConfig × List GitCall × Except String (Option Json) :=
  if req.method = "initialize" then
    (applyInitOverride cfg req.params, [], .ok (some initResultJson))
  else if req.method = "notifications/initialized" then
    (cfg, [], .ok none)
  else if req.method = "tools/list" then
    (cfg, [], .ok (some (.obj
      [("tools", .arr ((toolCatalog cfg).map toolToJson))])))
  else if req.method = "tools/call" then
    match parseCallToolParams (req.params.getD .null) with
    | .error e => (cfg, [], .error e)
    | .ok p =>
      let r := callTool env p
      (cfg, r.1, .ok (some r.2))
  else if req.id.isNone then
    (cfg, [], .ok none)
  else
    (cfg, [], .ok (some (.obj [("error", .obj
      [("code", .num (-32601)), ("message", .str "Method not found")])])))

/-- The response-emission tail of main's loop body: a line is written only
when both a payload and an `id` are present; a payload carrying an `error`
field becomes a transport `error` member, anything else becomes `result`. -/
def emitResponse (id : Option Json) (payload : Option Json) : Option Json :=
  match payload, id with
  | some p, some i =>
    match p.getField "error" with
    | some err => some (.obj [("jsonrpc", .str "2.0"), ("id", i), ("error", err)])
    | none => some (.obj [("jsonrpc", .str "2.0"), ("id", i), ("result", p)])
  | _, _ => none

/-- The stdin loop of main.rs over the serde outcome of each input line:
a line that fails to parse is logged and skipped (`continue`); a parsed
request is dispatched, its response (if any) emitted; an `Except.error`
from dispatch is the `?` that aborts `main`, so the remaining lines are
never processed. Returns the emitted response lines, the collaborator calls
made, and main's own `Result`. -/
def runLoop (cfg : ServerConfig) (env : GitEnv) :
    List (Except String JsonRpcRequest) →
      List Json × List GitCall × Except String Unit
  | [] => ([], [], .ok ())
  | .error _ :: rest => runLoop cfg env rest
  | .ok req :: rest =>
    match dispatch cfg env req with
    | (_, calls, .error e) => ([], calls, .error e)
    | (cfg2, calls, .ok payload) =>
      let r := runLoop cfg2 env rest
      ((emitResponse req.id payload).toList ++ r.1, calls ++ r.2.1, r.2.2)

/-- `sub` occurs as a substring of `s`. -/
def strContains (s sub : String) : Prop :=
  ∃ a b, s = a ++ sub ++ b

/-- A concrete environment for witnesses: an empty staged change set and a
collaborator that can commit. -/
def envEmptyStage : GitEnv :=
  { stagedDiff := getStagedDiffImpl []
    commit := fun _ => .ok "Commit successful: 0123abcd" }

/-- Convenience: an `initialize` request overriding the commit format. -/
def initReq (x : String) : JsonRpcRequest :=
  { jsonrpc := "2.0", method := "initialize"
    params := some (.obj [("options", .obj [("commitFormat", .str x)])])
    id := some (.num 1) }

/-! ### Helper lemmas -/

/-- Whenever a payload and an id are both present, exactly one response line
is built and its `id` member is the request's id, whether the payload becomes
a `result` or a transport `error`. -/
theorem emitResponse_some_some (i p : Json) :
    ∃ line, emitResponse (some i) (some p) = some line ∧
      line.getField "id" = some i := by
  rcases h : p.getField "error" with _ | err
  · refine ⟨.obj [("jsonrpc", .str "2.0"), ("id", i), ("result", p)], ?_, rfl⟩
    simp [emitResponse, h]
  · refine ⟨.obj [("jsonrpc", .str "2.0"), ("id", i), ("error", err)], ?_, rfl⟩
    simp [emitResponse, h]

/-- No payload and no id means no response line. -/
theorem emitResponse_none (p : Option Json) (i : Option Json) :
    emitResponse none p = none ∧ emitResponse i none = none := by
  constructor
  · cases p <;> rfl
  · cases i <;> rfl

/-! ### Claim theorems -/

/-- C5: an input line that fails to parse as a JSON request is dropped: it
emits no response, makes no collaborator call, and the loop continues with
the remaining lines exactly as if the bad line had not been there. -/
theorem malformed_line_dropped_loop_continues (cfg : ServerConfig) (env : GitEnv)
    (e : String) (rest : List (Except String JsonRpcRequest)) :
    runLoop cfg env (.error e :: rest) = runLoop cfg env rest := rfl

/-- C2: a `tools/call` request whose params do not deserialize into
`{name, arguments?}` propagates the parse error: the run ends in that error,
no response line is emitted for the request and the remaining lines are never
processed — unlike the drop-and-continue handling of unparseable lines. -/
theorem toolsCall_bad_params_propagates (cfg : ServerConfig) (env : GitEnv)
    (req : JsonRpcRequest) (rest : List (Except String JsonRpcRequest))
    (hm : req.method = "tools/call")
    (hp : ∃ e, parseCallToolParams (req.params.getD .null) = .error e) :
    ∃ e, runLoop cfg env (.ok req :: rest) = ([], [], .error e) := by
  obtain ⟨e, he⟩ := hp
  exact ⟨e, by simp [runLoop, dispatch, hm, he]⟩

/-- Witness for C2: a `tools/call` whose params are the number 3 kills the
run before a later well-formed request is seen. -/
theorem toolsCall_bad_params_witness :
    ∃ e, runLoop defaultServerConfig envEmptyStage
      [.ok ⟨"2.0", "tools/call", some (.num 3), some (.num 1)⟩,
       .ok (initReq "Z")] = ([], [], .error e) :=
  toolsCall_bad_params_propagates defaultServerConfig envEmptyStage
    ⟨"2.0", "tools/call", some (.num 3), some (.num 1)⟩ [.ok (initReq "Z")]
    rfl ⟨"invalid type: expected struct CallToolParams", rfl⟩

/-- C7: a `tools/call` naming an unrecognized tool yields a response whose
`result` member is `{isError: true, content: [{type:"text", text:"未知工具"}]}`
— under `result`, never as a transport `error`. -/
theorem unknown_tool_is_result (cfg : ServerConfig) (env : GitEnv) (i : Json)
    (nm : String) (h1 : nm ≠ "get_staged_diff") (h2 : nm ≠ "execute_commit") :
    (runLoop cfg env
      [.ok ⟨"2.0", "tools/call", some (.obj [("name", .str nm)]), some i⟩]).1 =
      [.obj [("jsonrpc", .str "2.0"), ("id", i),
             ("result", .obj [("isError", .bool true),
                              ("content", textContent "未知工具")])]] := by
  simp [runLoop, dispatch, parseCallToolParams, callTool, emitResponse,
    h1, h2, Json.getField, List.lookup]

/-- Witness for C7 at the concrete tool name `frobnicate` and id 7. -/
theorem unknown_tool_is_result_witness :
    (runLoop defaultServerConfig envEmptyStage
      [.ok ⟨"2.0", "tools/call", some (.obj [("name", .str "frobnicate")]),
            some (.num 7)⟩]).1 =
      [.obj [("jsonrpc", .str "2.0"), ("id", .num 7),
             ("result", .obj [("isError", .bool true),
                              ("content", textContent "未知工具")])]] :=
  unknown_tool_is_result defaultServerConfig envEmptyStage (.num 7) "frobnicate"
    (by decide) (by decide)

/-- Counterexample to C1 as stated: the request
`{"jsonrpc":"2.0","id":5,"method":"notifications/initialized"}` is
well-formed and carries an id, yet the loop emits no response line for it. -/
theorem id_request_without_response_counterexample :
    ((⟨"2.0", "notifications/initialized", none, some (.num 5)⟩ :
        JsonRpcRequest).id).isSome = true
    ∧ (runLoop defaultServerConfig envEmptyStage
        [.ok ⟨"2.0", "notifications/initialized", none, some (.num 5)⟩]).1 = [] :=
  ⟨rfl, rfl⟩

/-- Counterexample to C4 as stated: a second `initialize` carrying an
override mutates the configuration again — the template goes from the
default to `X` and then, on the later call, to `Y`. -/
theorem second_init_mutates_config_counterexample :
    (dispatch defaultServerConfig envEmptyStage (initReq "X")).1.commit_format = "X"
    ∧ (dispatch (dispatch defaultServerConfig envEmptyStage (initReq "X")).1
        envEmptyStage (initReq "Y")).1.commit_format = "Y" :=
  ⟨rfl, rfl⟩

/-- C1 (amended): a well-formed request carrying an `id` yields exactly one
response line echoing that exact `id`, for every method except
`notifications/initialized` (whose branch produces no payload even when an
`id` is present) and except a `tools/call` whose params fail to deserialize
(the propagated parse error aborts before any response); this includes a
`tools/call` whose tool execution fails. A request with `id` absent never
emits a response line. -/
theorem request_response_emission (cfg : ServerConfig) (env : GitEnv)
    (req : JsonRpcRequest) :
    (∀ i, req.id = some i →
      req.method ≠ "notifications/initialized" →
      (req.method = "tools/call" →
        ∃ p, parseCallToolParams (req.params.getD .null) = .ok p) →
      ∃ line, (runLoop cfg env [.ok req]).1 = [line] ∧
        line.getField "id" = some i)
    ∧ (req.id = none → (runLoop cfg env [.ok req]).1 = []) := by
  constructor
  · intro i hid hmeth hparse
    by_cases h1 : req.method = "initialize"
    · obtain ⟨line, he, hi⟩ := emitResponse_some_some i initResultJson
      refine ⟨line, ?_, hi⟩
      simp [runLoop, dispatch, h1, hid, he]
    by_cases h3 : req.method = "tools/list"
    · obtain ⟨line, he, hi⟩ := emitResponse_some_some i
        (.obj [("tools", .arr ((toolCatalog cfg).map toolToJson))])
      refine ⟨line, ?_, hi⟩
      simp [runLoop, dispatch, h1, hmeth, h3, hid, he]
    by_cases h4 : req.method = "tools/call"
    · obtain ⟨p, hp⟩ := hparse h4
      obtain ⟨line, he, hi⟩ := emitResponse_some_some i (callTool env p).2
      refine ⟨line, ?_, hi⟩
      simp [runLoop, dispatch, h1, hmeth, h3, h4, hp, hid, he]
    · obtain ⟨line, he, hi⟩ := emitResponse_some_some i
        (.obj [("error", .obj [("code", .num (-32601)),
                               ("message", .str "Method not found")])])
      refine ⟨line, ?_, hi⟩
      simp [runLoop, dispatch, h1, hmeth, h3, h4, hid, he]
  · intro hid
    rcases hd : dispatch cfg env req with ⟨c2, calls, out⟩
    rcases out with e | payload
    · simp [runLoop, hd]
    · rcases payload with _ | p <;> simp [runLoop, hd, emitResponse, hid]

/-- Witness for C1: a `tools/call` of `get_staged_diff` with id 9 against an
empty staged change set — the tool execution fails, yet exactly one response
line is emitted and it echoes id 9. -/
theorem request_response_emission_witness :
    ∃ line, (runLoop defaultServerConfig envEmptyStage
      [.ok ⟨"2.0", "tools/call", some (.obj [("name", .str "get_staged_diff")]),
            some (.num 9)⟩]).1 = [line] ∧ line.getField "id" = some (.num 9) :=
  (request_response_emission defaultServerConfig envEmptyStage
      ⟨"2.0", "tools/call", some (.obj [("name", .str "get_staged_diff")]),
       some (.num 9)⟩).1
    (.num 9) rfl (by decide) (fun _ => ⟨⟨"get_staged_diff", none⟩, rfl⟩)

/-- C3: `tools/list` answers with exactly the two tools `get_staged_diff` and
`execute_commit`, and the `get_staged_diff` description is regenerated from
the current configuration: after an `initialize` override to `x` it contains
`x`, and under the untouched default it contains the built-in template. -/
theorem tools_list_two_tools_reflect_config (cfg : ServerConfig) (env : GitEnv)
    (i : Json) (x : String) :
    ((runLoop cfg env [.ok ⟨"2.0", "tools/list", none, some i⟩]).1 =
      [.obj [("jsonrpc", .str "2.0"), ("id", i),
             ("result", .obj [("tools", .arr ((toolCatalog cfg).map toolToJson))])]])
    ∧ (toolCatalog cfg).map Tool.name = ["get_staged_diff", "execute_commit"]
    ∧ strContains (stagedDiffDesc (applyInitOverride cfg
        (some (.obj [("options", .obj [("commitFormat", .str x)])])))) x
    ∧ strContains (stagedDiffDesc defaultServerConfig) defaultCommitFormat := by
  refine ⟨?_, rfl, ?_, ?_⟩
  · simp [runLoop, dispatch, emitResponse, Json.getField, List.lookup]
  · exact ⟨"获取当前 git 暂存区的变更内容 (git diff --staged)。获取后，请你根据变更内容总结出一个提交信息，并询问用户是否提交。\n\n### 提交格式要求：\n",
      "\n\n### 额外约束：\n- Body 的每一行不得超过 80 个字符。\n- 如果修改范围很小，可以同时省略 English body 和 Chinese body。\n- 如果不省略 body，则必须同时保留 English body 和 Chinese body，不得只写其中一个。", rfl⟩
  · exact ⟨"获取当前 git 暂存区的变更内容 (git diff --staged)。获取后，请你根据变更内容总结出一个提交信息，并询问用户是否提交。\n\n### 提交格式要求：\n",
      "\n\n### 额外约束：\n- Body 的每一行不得超过 80 个字符。\n- 如果修改范围很小，可以同时省略 English body 和 Chinese body。\n- 如果不省略 body，则必须同时保留 English body 和 Chinese body，不得只写其中一个。", rfl⟩

/-- C4 (amended): the configuration is created at process start with the
built-in default; it is mutated only by `initialize` requests from whose
params a string `options.commitFormat` override is extracted — each such
call, first or later, overwrites it with that string — and it is unchanged
by every other method and by every `initialize` whose params (absent,
unparseable, without `options`, or without a string `commitFormat`) yield no
override. -/
theorem config_lifecycle (cfg : ServerConfig) (env : GitEnv)
    (req : JsonRpcRequest) (params : Option Json) (x : String) :
    defaultServerConfig.commit_format = defaultCommitFormat
    ∧ (req.method ≠ "initialize" → (dispatch cfg env req).1 = cfg)
    ∧ (req.method = "initialize" →
        (dispatch cfg env req).1 = applyInitOverride cfg req.params)
    ∧ ((∀ pv options, params = some pv → parseInitParams pv = .ok (some options) →
          (options.getField "commitFormat").bind Json.asStr = none) →
        applyInitOverride cfg params = cfg)
    ∧ (∀ pv options, params = some pv → parseInitParams pv = .ok (some options) →
        (options.getField "commitFormat").bind Json.asStr = some x →
        applyInitOverride cfg params = ⟨x⟩) := by
  refine ⟨rfl, ?_, ?_, ?_, ?_⟩
  · intro h
    unfold dispatch
    rw [if_neg h]
    split_ifs <;> try rfl
    cases parseCallToolParams (req.params.getD Json.null) <;> rfl
  · intro h
    simp [dispatch, h]
  · intro h
    rcases params with _ | pv
    · rfl
    rcases hpe : parseInitParams pv with e | opts
    · simp [applyInitOverride, hpe]
    rcases opts with _ | options
    · simp [applyInitOverride, hpe]
    · have hb := h pv options rfl hpe
      simp [applyInitOverride, hpe, hb]
  · intro pv options hpv hpe hx
    cases hpv
    simp [applyInitOverride, hpe, hx]

/-- Witness for C4: a `tools/list` request leaves the configuration
untouched, an `initialize` whose `options` object has no `commitFormat`
leaves it untouched, and an `initialize` overriding to `W` sets it to `W`. -/
theorem config_lifecycle_witness :
    (dispatch defaultServerConfig envEmptyStage
      ⟨"2.0", "tools/list", none, some (.num 1)⟩).1 = defaultServerConfig
    ∧ applyInitOverride defaultServerConfig
        (some (.obj [("options", .obj [])])) = defaultServerConfig
    ∧ applyInitOverride defaultServerConfig
        (some (.obj [("options", .obj [("commitFormat", .str "W")])])) = ⟨"W"⟩ :=
  ⟨(config_lifecycle defaultServerConfig envEmptyStage
      ⟨"2.0", "tools/list", none, some (.num 1)⟩ none "W").2.1 (by decide),
   (config_lifecycle defaultServerConfig envEmptyStage
      ⟨"2.0", "tools/list", none, some (.num 1)⟩
      (some (.obj [("options", .obj [])])) "W").2.2.2.1
     (fun pv options hpv hpe => by
       cases hpv
       cases hpe
       rfl),
   (config_lifecycle defaultServerConfig envEmptyStage
      ⟨"2.0", "tools/list", none, some (.num 1)⟩
      (some (.obj [("options", .obj [("commitFormat", .str "W")])])) "W").2.2.2.2
     (.obj [("options", .obj [("commitFormat", .str "W")])])
     (.obj [("commitFormat", .str "W")]) rfl rfl rfl⟩

/-- C6: a request whose method is none of the four known ones gets, when it
carries an `id`, the transport-level error `{code:-32601, message:"Method not
found"}`, and, when it is a notification, no response line at all. -/
theorem unknown_method_transport_error (cfg : ServerConfig) (env : GitEnv)
    (req : JsonRpcRequest)
    (h1 : req.method ≠ "initialize") (h2 : req.method ≠ "notifications/initialized")
    (h3 : req.method ≠ "tools/list") (h4 : req.method ≠ "tools/call") :
    (∀ i, req.id = some i → (runLoop cfg env [.ok req]).1 =
        [.obj [("jsonrpc", .str "2.0"), ("id", i),
               ("error", .obj [("code", .num (-32601)),
                               ("message", .str "Method not found")])]])
    ∧ (req.id = none → (runLoop cfg env [.ok req]).1 = []) := by
  constructor
  · intro i hid
    simp [runLoop, dispatch, h1, h2, h3, h4, hid, emitResponse,
      Json.getField, List.lookup]
  · intro hid
    simp [runLoop, dispatch, h1, h2, h3, h4, hid, emitResponse]

/-- Witness for C6 at the unknown method `foo` with id 2. -/
theorem unknown_method_transport_error_witness :
    (runLoop defaultServerConfig envEmptyStage
      [.ok ⟨"2.0", "foo", none, some (.num 2)⟩]).1 =
      [.obj [("jsonrpc", .str "2.0"), ("id", .num 2),
             ("error", .obj [("code", .num (-32601)),
                             ("message", .str "Method not found")])]] :=
  (unknown_method_transport_error defaultServerConfig envEmptyStage
      ⟨"2.0", "foo", none, some (.num 2)⟩
      (by decide) (by decide) (by decide) (by decide)).1 (.num 2) rfl

/-- C8: with an empty staged change set the diff collaborator fails (it never
returns an empty success), and a `tools/call` of `get_staged_diff` then
answers with `{isError: true, content: [{type:"text", text:
"没有发现已暂存的变更。"}]}` under `result`. -/
theorem empty_stage_diff_is_error (cfg : ServerConfig) (env : GitEnv) (i : Json)
    (diffLines : List String) (hl : String.join diffLines = "")
    (henv : env.stagedDiff = getStagedDiffImpl diffLines) :
    getStagedDiffImpl diffLines = .error "没有发现已暂存的变更。"
    ∧ (runLoop cfg env [.ok ⟨"2.0", "tools/call",
        some (.obj [("name", .str "get_staged_diff")]), some i⟩]).1 =
      [.obj [("jsonrpc", .str "2.0"), ("id", i),
             ("result", .obj [("isError", .bool true),
                              ("content", textContent "没有发现已暂存的变更。")])]] := by
  have h1 : getStagedDiffImpl diffLines = .error "没有发现已暂存的变更。" := by
    simp [getStagedDiffImpl, hl]
    rfl
  refine ⟨h1, ?_⟩
  simp [runLoop, dispatch, parseCallToolParams, callTool, henv, h1,
    emitResponse, Json.getField, List.lookup]

/-- Witness for C8: no staged diff lines at all, request id 4. -/
theorem empty_stage_diff_is_error_witness :
    getStagedDiffImpl [] = .error "没有发现已暂存的变更。"
    ∧ (runLoop defaultServerConfig envEmptyStage [.ok ⟨"2.0", "tools/call",
        some (.obj [("name", .str "get_staged_diff")]), some (.num 4)⟩]).1 =
      [.obj [("jsonrpc", .str "2.0"), ("id", .num 4),
             ("result", .obj [("isError", .bool true),
                              ("content", textContent "没有发现已暂存的变更。")])]] :=
  empty_stage_diff_is_error defaultServerConfig envEmptyStage (.num 4) [] rfl rfl

/-- C9: a `tools/call` of `execute_commit` whose arguments carry no string
`message` (arguments absent, field absent, or not a string) invokes the
commit collaborator with the empty string and produces a payload rather than
erroring before the invocation. -/
theorem execute_commit_missing_message (cfg : ServerConfig) (env : GitEnv)
    (req : JsonRpcRequest) (p : CallToolParams)
    (hm : req.method = "tools/call")
    (hp : parseCallToolParams (req.params.getD .null) = .ok p)
    (hn : p.name = "execute_commit")
    (hmsg : (p.arguments.bind fun a => (a.getField "message").bind Json.asStr) = none) :
    (dispatch cfg env req).2.1 = [GitCall.commit ""]
    ∧ ∃ out, (dispatch cfg env req).2.2 = .ok (some out) := by
  rcases hc : env.commit "" with e | r <;>
    simp [dispatch, hm, hp, callTool, hn, hmsg, hc]

/-- Witness for C9: `execute_commit` with the `arguments` field absent. -/
theorem execute_commit_missing_message_witness :
    (dispatch defaultServerConfig envEmptyStage
      ⟨"2.0", "tools/call", some (.obj [("name", .str "execute_commit")]),
       some (.num 3)⟩).2.1 = [GitCall.commit ""]
    ∧ ∃ out, (dispatch defaultServerConfig envEmptyStage
      ⟨"2.0", "tools/call", some (.obj [("name", .str "execute_commit")]),
       some (.num 3)⟩).2.2 = .ok (some out) :=
  execute_commit_missing_message defaultServerConfig envEmptyStage
    ⟨"2.0", "tools/call", some (.obj [("name", .str "execute_commit")]),
     some (.num 3)⟩
    ⟨"execute_commit", none⟩ rfl rfl rfl rfl

/-- C10: a `tools/call` notification (no `id`) still invokes the named
tool's collaborator — the call list is exactly the collaborator invocation
the tool makes — while emitting no response line. -/
theorem notification_tool_call_still_executes (cfg : ServerConfig) (env : GitEnv)
    (req : JsonRpcRequest) (p : CallToolParams)
    (hm : req.method = "tools/call") (hid : req.id = none)
    (hp : parseCallToolParams (req.params.getD .null) = .ok p) :
    (runLoop cfg env [.ok req]).1 = []
    ∧ (runLoop cfg env [.ok req]).2.1 = (callTool env p).1
    ∧ (p.name = "get_staged_diff" → (callTool env p).1 = [GitCall.getStagedDiff])
    ∧ (p.name = "execute_commit" → ∃ m, (callTool env p).1 = [GitCall.commit m]) := by
  refine ⟨?_, ?_, ?_, ?_⟩
  · simp [runLoop, dispatch, hm, hp, hid, emitResponse]
  · simp [runLoop, dispatch, hm, hp, hid, emitResponse]
  · intro hn
    rcases hd : env.stagedDiff with e | d <;> simp [callTool, hn, hd]
  · intro hn
    rcases hc : env.commit
        ((p.arguments.bind fun a => (a.getField "message").bind Json.asStr).getD "")
      with e | r <;> simp [callTool, hn, hc]

/-- Witness for C10: an `execute_commit` notification commits (with the empty
message) yet produces no output line. -/
theorem notification_tool_call_still_executes_witness :
    (runLoop defaultServerConfig envEmptyStage
      [.ok ⟨"2.0", "tools/call", some (.obj [("name", .str "execute_commit")]),
            none⟩]).1 = []
    ∧ (runLoop defaultServerConfig envEmptyStage
      [.ok ⟨"2.0", "tools/call", some (.obj [("name", .str "execute_commit")]),
            none⟩]).2.1 =
      (callTool envEmptyStage ⟨"execute_commit", none⟩).1
    ∧ ((⟨"execute_commit", none⟩ : CallToolParams).name = "get_staged_diff" →
        (callTool envEmptyStage ⟨"execute_commit", none⟩).1 = [GitCall.getStagedDiff])
    ∧ ((⟨"execute_commit", none⟩ : CallToolParams).name = "execute_commit" →
        ∃ m, (callTool envEmptyStage ⟨"execute_commit", none⟩).1 = [GitCall.commit m]) :=
  notification_tool_call_still_executes defaultServerConfig envEmptyStage
    ⟨"2.0", "tools/call", some (.obj [("name", .str "execute_commit")]), none⟩
    ⟨"execute_commit", none⟩ rfl rfl rfl
